import Mathlib

/-!
Verification of the Coffee Growth Tracker backend (src/main.py, src/schemas.py).

Shallow embedding conventions:
* Mongo documents fetched from a collection are fixed-field records with
  `Option` for fields that may be absent (`d.get(k)` returning `None`).
* Python `float` values carried by the entities (heights, temperatures,
  percentages) are modelled as rationals `ℚ`; `datetime` values are modelled
  as natural-number timestamps with `datetime.min` mapped to `0`; `date`
  values as integers.
* The document store adapter (`database.py`: `create_document`,
  `get_documents`) is not part of the two source files, so it is modelled
  from the spec (section 4.2): exact-match filter query, append-on-create
  with a store-assigned identifier.
* Handlers are state-passing functions `input → Store → (Except HttpError α) × Store`.
-/

namespace CoffeeTracker

/-- Python truthiness of an `Optional[str]` value: `None` and the empty
string are falsy, every other string is truthy. -/
def pyTruthyStr : Option String → Bool
  | none => false
  | some s => s ≠ ""

/-- A document of the `growthlog` collection (fields of `schemas.GrowthLog`). -/
structure GrowthLogDoc where
  plant_id : String
  observed_at : Int
  height_cm : Option ℚ
  leaves_count : Option Int
  stage : Option String
  notes : Option String
deriving DecidableEq

/-- A document of the `sensorreading` collection (fields of `schemas.SensorReading`);
`recorded_at` is `Option` because a raw stored document may lack the field,
which `d.get("recorded_at", datetime.min)` defaults to the minimal timestamp `0`. -/
structure SensorReadingDoc where
  plant_id : String
  recorded_at : Option Nat
  temperature_c : Option ℚ
  humidity_pct : Option ℚ
  soil_moisture_pct : Option ℚ
deriving DecidableEq

/-- A document of the `plant` collection (fields of `schemas.Plant`). -/
structure PlantDoc where
  name : String
  variety : Option String
  sow_date : Int
  location : Option String
  notes : Option String
deriving DecidableEq

/-- Python `max(xs)` over a list, guarded by `if xs else None` as in
`max(height_values) if height_values else None`. -/
def listMax : List ℚ → Option ℚ
  | [] => none
  | x :: xs => some (xs.foldl max x)

/-- Python `min(xs)` over a list, guarded as in the source. -/
def listMin : List ℚ → Option ℚ
  | [] => none
  | x :: xs => some (xs.foldl min x)

/-- Python `sum(xs) / len(xs) if xs else None`. -/
def listMean (xs : List ℚ) : Option ℚ :=
  match xs with
  | [] => none
  | _ :: _ => some (xs.sum / (xs.length : ℚ))

/-- Python dict update `m[s] = m.get(s, 0) + 1` on an insertion-ordered
association list (the model of a Python `dict`). -/
def dictIncr (m : List (String × Nat)) (s : String) : List (String × Nat) :=
  match m with
  | [] => [(s, 1)]
  | (k, v) :: rest => if k = s then (k, v + 1) :: rest else (k, v) :: dictIncr rest s

/-- Python `m.get(s, 0)` on the association-list model of a dict. -/
def dictGet (m : List (String × Nat)) (s : String) : Nat :=
  match m with
  | [] => 0
  | (k, v) :: rest => if k = s then v else dictGet rest s

/-- The stage-counting loop of `plant_stats`:
`for l in logs: s = l.get("stage"); if s: stages[s] = stages.get(s, 0) + 1`.
The guard `if s:` is Python truthiness, so both a missing stage and the
empty-string stage are skipped. -/
def stageStep (m : List (String × Nat)) (l : GrowthLogDoc) : List (String × Nat) :=
  match l.stage with
  | some s => if s = "" then m else dictIncr m s
  | none => m

/-- The whole stage-counting loop of `plant_stats`, starting from the empty
dict `stages = {}`. -/
def stagesCounts (logs : List GrowthLogDoc) : List (String × Nat) :=
  logs.foldl stageStep []

/-- The result object of `plant_stats`. -/
structure PlantStatsResult where
  max_height_cm : Option ℚ
  min_height_cm : Option ℚ
  avg_height_cm : Option ℚ
  avg_temperature_c : Option ℚ
  avg_soil_moisture_pct : Option ℚ
  stages_counts : List (String × Nat)
  logs_count : Nat
  readings_count : Nat
deriving DecidableEq

/-- The aggregation core of `plant_stats` (src/main.py lines 154-181), applied
to the already-fetched logs and readings. -/
def computePlantStats (logs : List GrowthLogDoc) (readings : List SensorReadingDoc) :
    PlantStatsResult :=
  let height_values := logs.filterMap (fun l => l.height_cm)
  let temps := readings.filterMap (fun r => r.temperature_c)
  let moist := readings.filterMap (fun r => r.soil_moisture_pct)
  { max_height_cm := listMax height_values
    min_height_cm := listMin height_values
    avg_height_cm := listMean height_values
    avg_temperature_c := listMean temps
    avg_soil_moisture_pct := listMean moist
    stages_counts := stagesCounts logs
    logs_count := logs.length
    readings_count := readings.length }

/-- The document store state: one list of documents per collection. A created
document's store-assigned identifier is modelled as the decimal rendering of
the collection's length at insertion time (unique within the collection). -/
structure Store where
  plants : List PlantDoc
  growthlogs : List GrowthLogDoc
  sensorreadings : List SensorReadingDoc
deriving DecidableEq

/-- Modelled from the spec: `database.py` is not among the source files; the
spec (section 4.2) defines `query(collection, filter)` as returning all
documents of the collection matching an exact-match field filter, an empty
filter returning all documents. The only filter the handlers build is
`{"plant_id": pid}` or `{}`, modelled as `Option String`. -/
def getGrowthLogs (st : Store) (filt : Option String) : List GrowthLogDoc :=
  match filt with
  | none => st.growthlogs
  | some pid => st.growthlogs.filter (fun d => d.plant_id == pid)

/-- Modelled from the spec: same adapter query, on the `sensorreading`
collection. -/
def getSensorReadings (st : Store) (filt : Option String) : List SensorReadingDoc :=
  match filt with
  | none => st.sensorreadings
  | some pid => st.sensorreadings.filter (fun d => d.plant_id == pid)

/-- The `GET /stats/plant` handler `plant_stats` (src/main.py lines 149-183):
fetch the logs and readings matching the plant identifier, then aggregate. -/
def plant_stats (plant_id : String) (st : Store) : PlantStatsResult :=
  computePlantStats (getGrowthLogs st (some plant_id)) (getSensorReadings st (some plant_id))

/-- Sort key of `latest_sensor_readings`: `d.get("recorded_at", datetime.min)`,
with `datetime.min` being the least timestamp, modelled as `0`. -/
def recordedKey (d : SensorReadingDoc) : Nat :=
  d.recorded_at.getD 0

/-- The clamp `max(1, min(limit, 200))` applied to the requested limit. -/
def pyClamp (limit : Int) : Int :=
  max 1 (min limit 200)

/-- The `GET /sensor-readings/latest` handler `latest_sensor_readings`
(src/main.py lines 137-145): fetch the readings matching the plant
identifier, sort them by `recorded_at` descending with a missing timestamp
defaulting to the minimum, and keep the first `max(1, min(limit, 200))`. -/
def latest_sensor_readings (plant_id : String) (limit : Int) (st : Store) :
    List SensorReadingDoc :=
  let docs := getSensorReadings st (some plant_id)
  let docs_sorted := docs.mergeSort (fun a b => decide (recordedKey b ≤ recordedKey a))
  docs_sorted.take (pyClamp limit).toNat

/-- Modelled from the spec: bson `ObjectId(plant_id)` on a string argument
succeeds exactly when the string is a 24-character hexadecimal string; the
spec calls this parsing "as a store-compatible identifier" and surfaces a
failure as `InvalidIdentifierFormat` (400). -/
def isValidObjectId (s : String) : Bool :=
  s.length == 24 &&
    s.toList.all (fun c =>
      c.isDigit || (decide ('a' ≤ c) && decide (c ≤ 'f')) ||
        (decide ('A' ≤ c) && decide (c ≤ 'F')))

/-- An HTTP error response: status code and detail text. -/
structure HttpError where
  status : Nat
  detail : String
deriving DecidableEq

/-- Raw body of `POST /plants` before pydantic validation: every field as it
may or may not appear in the JSON body. -/
structure PlantInput where
  name : Option String
  variety : Option String
  sow_date : Option Int
  location : Option String
  notes : Option String
deriving DecidableEq

/-- Raw body of `POST /growth-logs` before pydantic validation. -/
structure GrowthLogInput where
  plant_id : Option String
  observed_at : Option Int
  height_cm : Option ℚ
  leaves_count : Option Int
  stage : Option String
  notes : Option String
deriving DecidableEq

/-- Raw body of `POST /sensor-readings` before pydantic validation. -/
structure SensorReadingInput where
  plant_id : Option String
  recorded_at : Option Nat
  temperature_c : Option ℚ
  humidity_pct : Option ℚ
  soil_moisture_pct : Option ℚ
deriving DecidableEq

/-- Pydantic constraint `Field(None, ge=0)` on an optional rational. -/
def optNonnegQ : Option ℚ → Bool
  | none => true
  | some x => decide (0 ≤ x)

/-- Pydantic constraint `Field(None, ge=0)` on an optional integer. -/
def optNonnegZ : Option Int → Bool
  | none => true
  | some n => decide (0 ≤ n)

/-- Pydantic constraint `Field(None, ge=0, le=100)` on an optional rational. -/
def optPct : Option ℚ → Bool
  | none => true
  | some x => decide (0 ≤ x) && decide (x ≤ 100)

/-- Pydantic validation of `schemas.Plant`: `name` and `sow_date` are
required, the rest optional; no constraint beyond presence and type (in
particular no non-emptiness check on `name`). -/
def validatePlant (i : PlantInput) : Except String PlantDoc :=
  match i.name with
  | none => Except.error "name: field required"
  | some nm =>
    match i.sow_date with
    | none => Except.error "sow_date: field required"
    | some d => Except.ok ⟨nm, i.variety, d, i.location, i.notes⟩

/-- Pydantic validation of `schemas.GrowthLog`: `plant_id` and `observed_at`
required; `height_cm` optional with `ge=0`; `leaves_count` optional with
`ge=0`. -/
def validateGrowthLog (i : GrowthLogInput) : Except String GrowthLogDoc :=
  match i.plant_id with
  | none => Except.error "plant_id: field required"
  | some pid =>
    match i.observed_at with
    | none => Except.error "observed_at: field required"
    | some dt =>
      if optNonnegQ i.height_cm then
        if optNonnegZ i.leaves_count then
          Except.ok ⟨pid, dt, i.height_cm, i.leaves_count, i.stage, i.notes⟩
        else Except.error "leaves_count: ensure this value is greater than or equal to 0"
      else Except.error "height_cm: ensure this value is greater than or equal to 0"

/-- Pydantic validation of `schemas.SensorReading`: `plant_id` required;
`recorded_at` defaults to the capture time `now` when omitted;
`humidity_pct` and `soil_moisture_pct` optional within `0 ≤ x ≤ 100`. -/
def validateSensorReading (now : Nat) (i : SensorReadingInput) :
    Except String SensorReadingDoc :=
  match i.plant_id with
  | none => Except.error "plant_id: field required"
  | some pid =>
    if optPct i.humidity_pct then
      if optPct i.soil_moisture_pct then
        Except.ok ⟨pid, some (i.recorded_at.getD now), i.temperature_c,
          i.humidity_pct, i.soil_moisture_pct⟩
      else Except.error "soil_moisture_pct: ensure this value is less than or equal to 100"
    else Except.error "humidity_pct: ensure this value is less than or equal to 100"

/-- Modelled from the spec: `create_document("plant", doc)` persists one
document and returns its assigned identifier as text. -/
def storeCreatePlant (st : Store) (p : PlantDoc) : String × Store :=
  (toString st.plants.length, { st with plants := st.plants ++ [p] })

/-- Modelled from the spec: `create_document("growthlog", doc)`. -/
def storeCreateGrowthLog (st : Store) (g : GrowthLogDoc) : String × Store :=
  (toString st.growthlogs.length, { st with growthlogs := st.growthlogs ++ [g] })

/-- Modelled from the spec: `create_document("sensorreading", doc)`. -/
def storeCreateSensorReading (st : Store) (r : SensorReadingDoc) : String × Store :=
  (toString st.sensorreadings.length, { st with sensorreadings := st.sensorreadings ++ [r] })

/-- The `POST /plants` handler `create_plant` (src/main.py lines 74-81),
applied to an already-validated body. -/
def create_plant (p : PlantDoc) (st : Store) : Except HttpError String × Store :=
  let (new_id, st') := storeCreatePlant st p
  (Except.ok new_id, st')

/-- The `POST /growth-logs` handler `create_growth_log` (src/main.py lines
94-107), applied to an already-validated body: the `ObjectId` format check
on `plant_id` raises a 400 before any store call. -/
def create_growth_log (log : GrowthLogDoc) (st : Store) : Except HttpError String × Store :=
  if isValidObjectId log.plant_id then
    let (new_id, st') := storeCreateGrowthLog st log
    (Except.ok new_id, st')
  else
    (Except.error ⟨400, "Invalid plant_id format"⟩, st)

/-- The `POST /sensor-readings` handler `ingest_sensor_reading` (src/main.py
lines 121-134), applied to an already-validated body. -/
def ingest_sensor_reading (reading : SensorReadingDoc) (st : Store) :
    Except HttpError String × Store :=
  if isValidObjectId reading.plant_id then
    let (new_id, st') := storeCreateSensorReading st reading
    (Except.ok new_id, st')
  else
    (Except.error ⟨400, "Invalid plant_id format"⟩, st)

/-- The full `POST /plants` pipeline: FastAPI/pydantic validation of the raw
body (a failure is a 422 client error that never reaches the handler), then
the handler. -/
def post_plant (i : PlantInput) (st : Store) : Except HttpError String × Store :=
  match validatePlant i with
  | Except.error e => (Except.error ⟨422, e⟩, st)
  | Except.ok p => create_plant p st

/-- The full `POST /growth-logs` pipeline: pydantic validation, then the
handler. -/
def post_growth_log (i : GrowthLogInput) (st : Store) : Except HttpError String × Store :=
  match validateGrowthLog i with
  | Except.error e => (Except.error ⟨422, e⟩, st)
  | Except.ok log => create_growth_log log st

/-- The full `POST /sensor-readings` pipeline: pydantic validation (with
capture time `now` for the `recorded_at` default), then the handler. -/
def post_sensor_reading (now : Nat) (i : SensorReadingInput) (st : Store) :
    Except HttpError String × Store :=
  match validateSensorReading now i with
  | Except.error e => (Except.error ⟨422, e⟩, st)
  | Except.ok r => ingest_sensor_reading r st

/-- The `GET /growth-logs` handler `list_growth_logs` (src/main.py lines
110-117): `filt = {"plant_id": plant_id} if plant_id else {}` uses Python
truthiness, so both an omitted and an empty-string `plant_id` drop the
filter. -/
def list_growth_logs (plant_id : Option String) (st : Store) : List GrowthLogDoc :=
  let filt := if pyTruthyStr plant_id then plant_id else none
  getGrowthLogs st filt

/-! Concrete sample data used by witnesses. -/

/-- Sample store for the C1 witness: it holds documents, but none for the
queried plant identifier. -/
def c1Store : Store :=
  { plants := []
    growthlogs := [⟨"aaa", 0, some 5, none, some "seed", none⟩]
    sensorreadings := [⟨"aaa", some 10, some 20, none, some 40⟩] }

/-- The queried plant identifier of C4 (a well-formed 24-character id). -/
def c4Pid : String := "aaaaaaaaaaaaaaaaaaaaaaaa"

/-- Sample store for C4: 3 logs with heights 10, 20, 30 and 2 readings with
temperatures 18, 22, all for `c4Pid`. -/
def c4Store : Store :=
  { plants := []
    growthlogs :=
      [⟨c4Pid, 1, some 10, none, none, none⟩,
       ⟨c4Pid, 2, some 20, none, none, none⟩,
       ⟨c4Pid, 3, some 30, none, none, none⟩]
    sensorreadings :=
      [⟨c4Pid, some 1, some 18, none, none⟩,
       ⟨c4Pid, some 2, some 22, none, none⟩] }

/-! Theorems for the claims. -/

/-- C1: for a plant identifier for which the store holds zero GrowthLog and
zero SensorReading documents, `plant_stats` returns the well-formed result
with all-null aggregates, zero counts and an empty stage mapping. -/
theorem C1_empty_stats (pid : String) (st : Store)
    (hlogs : getGrowthLogs st (some pid) = [])
    (hreads : getSensorReadings st (some pid) = []) :
    plant_stats pid st =
      { max_height_cm := none, min_height_cm := none, avg_height_cm := none,
        avg_temperature_c := none, avg_soil_moisture_pct := none,
        stages_counts := [], logs_count := 0, readings_count := 0 } := by
  unfold plant_stats
  rw [hlogs, hreads]
  rfl

/-- Witness for C1 at a concrete store that holds documents for a different
plant only. -/
theorem C1_empty_stats_witness :
    plant_stats "bbb" c1Store =
      { max_height_cm := none, min_height_cm := none, avg_height_cm := none,
        avg_temperature_c := none, avg_soil_moisture_pct := none,
        stages_counts := [], logs_count := 0, readings_count := 0 } :=
  C1_empty_stats "bbb" c1Store (by decide) (by decide)

/-- C4: on 3 logs with heights 10, 20, 30 and 2 readings with temperatures
18, 22 matching the queried plant, `plant_stats` returns max 30, min 10,
avg 20, avg temperature 20, 3 logs and 2 readings. -/
theorem C4_concrete_stats :
    (plant_stats c4Pid c4Store).max_height_cm = some 30 ∧
    (plant_stats c4Pid c4Store).min_height_cm = some 10 ∧
    (plant_stats c4Pid c4Store).avg_height_cm = some 20 ∧
    (plant_stats c4Pid c4Store).avg_temperature_c = some 20 ∧
    (plant_stats c4Pid c4Store).logs_count = 3 ∧
    (plant_stats c4Pid c4Store).readings_count = 2 := by
  refine ⟨rfl, rfl, ?_, ?_, rfl, rfl⟩ <;>
    norm_num [plant_stats, computePlantStats, getGrowthLogs, getSensorReadings,
      c4Store, c4Pid, listMean, List.filterMap_cons, List.filterMap_nil]

/-- C10: calling `GET /growth-logs` with an empty-string `plant_id` drops
the filter entirely and returns every GrowthLog document in the store,
exactly as when `plant_id` is omitted. -/
theorem C10_empty_plant_id_drops_filter (st : Store) :
    list_growth_logs (some "") st = st.growthlogs ∧
    list_growth_logs none st = st.growthlogs := by
  exact ⟨rfl, rfl⟩

/-- Sample log with the malformed identifier of the spec's test list. -/
def c7Log : GrowthLogDoc := ⟨"not-an-id", 0, some 5, none, none, none⟩

/-- Sample reading with the same malformed identifier. -/
def c7Reading : SensorReadingDoc := ⟨"not-an-id", some 3, some 21, none, none⟩

/-- Sample non-empty store for the C7 witness. -/
def c7Store : Store :=
  { plants := [⟨"arabica", none, 0, none, none⟩]
    growthlogs := [⟨"aaaaaaaaaaaaaaaaaaaaaaaa", 0, some 5, none, none, none⟩]
    sensorreadings := [] }

/-- C7: a GrowthLog or SensorReading creation whose plant identifier does not
parse as a store-compatible identifier yields a 400 client error and leaves
the store unchanged. -/
theorem C7_invalid_plant_id_400 (log : GrowthLogDoc) (reading : SensorReadingDoc) (st : Store)
    (hlog : isValidObjectId log.plant_id = false)
    (hreading : isValidObjectId reading.plant_id = false) :
    create_growth_log log st = (Except.error ⟨400, "Invalid plant_id format"⟩, st) ∧
    ingest_sensor_reading reading st = (Except.error ⟨400, "Invalid plant_id format"⟩, st) := by
  constructor
  · simp [create_growth_log, hlog]
  · simp [ingest_sensor_reading, hreading]

/-- Witness for C7 with `plant_id = "not-an-id"` against a non-empty store. -/
theorem C7_invalid_plant_id_400_witness :
    create_growth_log c7Log c7Store = (Except.error ⟨400, "Invalid plant_id format"⟩, c7Store) ∧
    ingest_sensor_reading c7Reading c7Store =
      (Except.error ⟨400, "Invalid plant_id format"⟩, c7Store) :=
  C7_invalid_plant_id_400 c7Log c7Reading c7Store (by decide) (by decide)

/-- Plant creation body with an empty name, used for C9. -/
def c9Input : PlantInput := ⟨some "", none, some 738000, none, none⟩

/-- An empty store, used for C9. -/
def c9EmptyStore : Store := ⟨[], [], []⟩

/-- C9 counterexample: a Plant body whose `name` is the empty string passes
validation and is persisted by `POST /plants` — it is not rejected, because
the schema only requires `name` to be a string, with no non-emptiness
constraint. -/
theorem C9_counterexample :
    validatePlant c9Input = Except.ok ⟨"", none, 738000, none, none⟩ ∧
    post_plant c9Input c9EmptyStore =
      (Except.ok "0",
       { plants := [⟨"", none, 738000, none, none⟩], growthlogs := [], sensorreadings := [] }) := by
  exact ⟨rfl, rfl⟩

/-- C9 amended: a Plant creation request whose `name` is the empty string is
accepted — validation only requires `name` to be present as text — and the
document is persisted with the empty name. -/
theorem C9_empty_name_accepted (i : PlantInput) (st : Store) (d : Int)
    (hname : i.name = some "") (hdate : i.sow_date = some d) :
    post_plant i st =
      (Except.ok (toString st.plants.length),
       { st with plants := st.plants ++ [⟨"", i.variety, d, i.location, i.notes⟩] }) := by
  simp [post_plant, validatePlant, hname, hdate, create_plant, storeCreatePlant]

/-- Witness for the amended C9 at the concrete empty-name body. -/
theorem C9_empty_name_accepted_witness :
    post_plant c9Input c9EmptyStore =
      (Except.ok "0",
       { plants := [⟨"", none, 738000, none, none⟩], growthlogs := [], sensorreadings := [] }) := by
  have h := C9_empty_name_accepted c9Input c9EmptyStore 738000 rfl rfl
  simpa [c9EmptyStore, c9Input] using h

/-- A log whose stage is present and equal to the empty string, for C3. -/
def c3Log : GrowthLogDoc := ⟨"p", 0, none, none, some "", none⟩

/-- C3 counterexample: one log carries the (non-absent) empty-string stage,
so the claim demands `stages_counts` to map `""` to 1; the code's truthiness
guard `if s:` skips it and the mapping stays empty. -/
theorem C3_counterexample :
    (computePlantStats [c3Log] []).stages_counts = [] ∧
    List.countP (fun l => l.stage == some "") [c3Log] = 1 := by
  exact ⟨rfl, rfl⟩

/-- Looking up a key after a dict increment: the stored count grows by one at
the incremented key and is unchanged elsewhere. -/
theorem dictGet_dictIncr (m : List (String × Nat)) (k s : String) :
    dictGet (dictIncr m k) s = dictGet m s + (if k = s then 1 else 0) := by
  induction m with
  | nil =>
    by_cases h : k = s <;> simp [dictIncr, dictGet, h]
  | cons hd tl ih =>
    obtain ⟨k0, v0⟩ := hd
    by_cases h0 : k0 = k
    · subst h0
      by_cases h1 : k0 = s <;> simp [dictIncr, dictGet, h1]
    · by_cases h1 : k0 = s
      · subst h1
        simp [dictIncr, dictGet, h0, Ne.symm h0]
      · simp [dictIncr, dictGet, h0, h1, ih]

/-- Invariant of the stage-counting loop: after folding any list of logs into
any dict, the count at key `s` is the initial count plus the number of logs
whose stage is the truthy value `s`. -/
theorem dictGet_foldl_stageStep (logs : List GrowthLogDoc) (m : List (String × Nat))
    (s : String) :
    dictGet (logs.foldl stageStep m) s =
      dictGet m s + logs.countP (fun l => l.stage == some s && s != "") := by
  induction logs generalizing m with
  | nil => simp
  | cons l t ih =>
    rw [List.foldl_cons, ih, List.countP_cons]
    rcases hst : l.stage with _ | u
    · simp [stageStep, hst]
    · simp only [stageStep, hst]
      by_cases hu : u = ""
      · subst hu
        rw [if_pos rfl]
        by_cases hs : s = ""
        · simp [hs]
        · simp [hs, Ne.symm hs]
      · rw [if_neg hu, dictGet_dictIncr]
        by_cases hus : u = s
        · subst hus
          simp [hu]
          omega
        · simp [hus]

/-- C3 amended: `stages_counts` maps each distinct non-absent, non-empty
stage value to the exact number of logs carrying it, and contains no other
keys; a present but empty-string stage is skipped by the truthiness guard
just like an absent one, so the count at the empty-string key is zero. -/
theorem C3_stages_counts (logs : List GrowthLogDoc) (readings : List SensorReadingDoc)
    (s : String) :
    dictGet (computePlantStats logs readings).stages_counts s =
      logs.countP (fun l => l.stage == some s && s != "") := by
  have h := dictGet_foldl_stageStep logs [] s
  simpa [computePlantStats, stagesCounts, dictGet] using h

/-- C5: the latest-readings list is no longer than the clamped limit and no
longer than the number of matching readings; a limit of zero or below clamps
up to 1 and a limit of 200 or above clamps down to 200. -/
theorem C5_latest_length_clamped (plant_id : String) (limit : Int) (st : Store) :
    (latest_sensor_readings plant_id limit st).length ≤ (pyClamp limit).toNat ∧
    (latest_sensor_readings plant_id limit st).length ≤
      (getSensorReadings st (some plant_id)).length ∧
    (limit ≤ 0 → pyClamp limit = 1) ∧
    (200 ≤ limit → pyClamp limit = 200) := by
  have hlen : (latest_sensor_readings plant_id limit st).length =
      min (pyClamp limit).toNat (getSensorReadings st (some plant_id)).length := by
    simp [latest_sensor_readings]
  refine ⟨?_, ?_, ?_, ?_⟩
  · rw [hlen]; exact min_le_left _ _
  · rw [hlen]; exact min_le_right _ _
  · intro h; rw [pyClamp]; omega
  · intro h; rw [pyClamp]; omega

/-- Store for the C5 witness: two matching readings. -/
def c5Store : Store :=
  { plants := []
    growthlogs := []
    sensorreadings :=
      [⟨"p", some 5, some 19, none, none⟩, ⟨"p", some 3, some 18, none, none⟩] }

/-- Witness for C5 at the concrete negative limit -7, whose clamp is 1. -/
theorem C5_latest_length_clamped_witness :
    (latest_sensor_readings "p" (-7) c5Store).length ≤ (pyClamp (-7)).toNat ∧
    pyClamp (-7) = 1 := by
  have h := C5_latest_length_clamped "p" (-7) c5Store
  exact ⟨h.1, h.2.2.1 (by decide)⟩

/-- C6: the latest-readings list is sorted by `recorded_at` descending, a
missing timestamp counting as the minimal one; consequently any reading that
follows a timestamp-less reading in the output also has the minimal key. -/
theorem C6_latest_sorted_desc (plant_id : String) (limit : Int) (st : Store) :
    (latest_sensor_readings plant_id limit st).Pairwise
      (fun a b => recordedKey b ≤ recordedKey a) ∧
    (latest_sensor_readings plant_id limit st).Pairwise
      (fun a b => a.recorded_at = none → recordedKey b = 0) := by
  have hsorted : ((getSensorReadings st (some plant_id)).mergeSort
      (fun a b => decide (recordedKey b ≤ recordedKey a))).Pairwise
      (fun a b => recordedKey b ≤ recordedKey a) := by
    have h := @List.sorted_mergeSort SensorReadingDoc
      (fun a b => decide (recordedKey b ≤ recordedKey a))
      (fun a b c hab hbc => by
        simp only [decide_eq_true_eq] at *
        omega)
      (fun a b => by
        simp only [Bool.or_eq_true, decide_eq_true_eq]
        omega)
      (getSensorReadings st (some plant_id))
    exact h.imp (fun hab => by simpa using hab)
  have htake : (latest_sensor_readings plant_id limit st).Pairwise
      (fun a b => recordedKey b ≤ recordedKey a) := by
    unfold latest_sensor_readings
    exact hsorted.take
  refine ⟨htake, htake.imp ?_⟩
  intro a b hab hnone
  simp only [recordedKey, hnone, Option.getD_none, Nat.le_zero] at hab
  rw [recordedKey]
  omega

/-- A GrowthLog body with an out-of-range numeric field: a negative
`height_cm` or a negative `leaves_count`. -/
def growthLogOutOfRange (i : GrowthLogInput) : Prop :=
  (∃ x, i.height_cm = some x ∧ x < 0) ∨ (∃ n, i.leaves_count = some n ∧ n < 0)

/-- A SensorReading body with an out-of-range numeric field: `humidity_pct`
or `soil_moisture_pct` outside the closed interval from 0 to 100. -/
def sensorOutOfRange (i : SensorReadingInput) : Prop :=
  (∃ x, i.humidity_pct = some x ∧ (x < 0 ∨ 100 < x)) ∨
  (∃ x, i.soil_moisture_pct = some x ∧ (x < 0 ∨ 100 < x))

/-- An out-of-range GrowthLog body never validates. -/
theorem validateGrowthLog_error_of_out_of_range (i : GrowthLogInput)
    (h : growthLogOutOfRange i) :
    ∃ e, validateGrowthLog i = Except.error e := by
  obtain ⟨po, oo, hc, lc, stg, nts⟩ := i
  rcases po with _ | pid
  · exact ⟨_, rfl⟩
  rcases oo with _ | dt
  · exact ⟨_, rfl⟩
  simp only [validateGrowthLog]
  by_cases h1 : optNonnegQ hc = true
  · rcases h with ⟨x, hx, hlt⟩ | ⟨n, hn, hlt⟩
    · exfalso
      rw [show (⟨some pid, some dt, hc, lc, stg, nts⟩ : GrowthLogInput).height_cm = hc from rfl]
        at hx
      rw [hx] at h1
      simp only [optNonnegQ, decide_eq_true_eq] at h1
      linarith
    · have h2 : optNonnegZ lc = false := by
        rw [show (⟨some pid, some dt, hc, lc, stg, nts⟩ : GrowthLogInput).leaves_count = lc
          from rfl] at hn
        rw [hn]
        simp only [optNonnegZ, decide_eq_false_iff_not]
        omega
      rw [if_pos h1, if_neg (by rw [h2]; exact Bool.false_ne_true)]
      exact ⟨_, rfl⟩
  · rw [if_neg h1]
    exact ⟨_, rfl⟩

/-- An out-of-range SensorReading body never validates. -/
theorem validateSensorReading_error_of_out_of_range (now : Nat) (i : SensorReadingInput)
    (h : sensorOutOfRange i) :
    ∃ e, validateSensorReading now i = Except.error e := by
  obtain ⟨po, ra, tc, hum, soil⟩ := i
  rcases po with _ | pid
  · exact ⟨_, rfl⟩
  simp only [validateSensorReading]
  by_cases h1 : optPct hum = true
  · rcases h with ⟨x, hx, hout⟩ | ⟨x, hx, hout⟩
    · exfalso
      rw [show (⟨some pid, ra, tc, hum, soil⟩ : SensorReadingInput).humidity_pct = hum
        from rfl] at hx
      rw [hx] at h1
      simp only [optPct, Bool.and_eq_true, decide_eq_true_eq] at h1
      rcases hout with hlt | hgt <;> linarith [h1.1, h1.2]
    · have h2 : optPct soil = false := by
        rw [show (⟨some pid, ra, tc, hum, soil⟩ : SensorReadingInput).soil_moisture_pct = soil
          from rfl] at hx
        rw [hx]
        simp only [optPct, Bool.and_eq_false_iff, decide_eq_false_iff_not]
        rcases hout with hlt | hgt
        · left; linarith
        · right; linarith
      rw [if_pos h1, if_neg (by rw [h2]; exact Bool.false_ne_true)]
      exact ⟨_, rfl⟩
  · rw [if_neg h1]
    exact ⟨_, rfl⟩

/-- C8: a creation body with an out-of-range numeric field fails validation
with a 422 client error and the store is untouched — no create call is
reached, for GrowthLog and SensorReading alike. -/
theorem C8_out_of_range_rejected (gi : GrowthLogInput) (si : SensorReadingInput)
    (now : Nat) (st : Store)
    (hg : growthLogOutOfRange gi) (hs : sensorOutOfRange si) :
    (∃ e, post_growth_log gi st = (Except.error ⟨422, e⟩, st)) ∧
    (∃ e, post_sensor_reading now si st = (Except.error ⟨422, e⟩, st)) := by
  obtain ⟨eg, heg⟩ := validateGrowthLog_error_of_out_of_range gi hg
  obtain ⟨es, hes⟩ := validateSensorReading_error_of_out_of_range now si hs
  constructor
  · exact ⟨eg, by rw [post_growth_log, heg]⟩
  · exact ⟨es, by rw [post_sensor_reading, hes]⟩

/-- The seed of a running maximum is below the result. -/
theorem le_foldl_max (xs : List ℚ) (a : ℚ) : a ≤ xs.foldl max a := by
  induction xs generalizing a with
  | nil => exact le_refl a
  | cons x t ih =>
    rw [List.foldl_cons]
    exact le_trans (le_max_left a x) (ih (max a x))

/-- Every element of the list is below the running maximum. -/
theorem mem_le_foldl_max (xs : List ℚ) (a : ℚ) : ∀ v ∈ xs, v ≤ xs.foldl max a := by
  induction xs generalizing a with
  | nil => intro v hv; cases hv
  | cons x t ih =>
    intro v hv
    rw [List.foldl_cons]
    rcases List.mem_cons.mp hv with h | h
    · subst h
      exact le_trans (le_max_right a v) (le_foldl_max t (max a v))
    · exact ih (max a x) v h

/-- The running maximum is the seed or an element of the list. -/
theorem foldl_max_mem (xs : List ℚ) (a : ℚ) :
    xs.foldl max a = a ∨ xs.foldl max a ∈ xs := by
  induction xs generalizing a with
  | nil => exact Or.inl rfl
  | cons x t ih =>
    rw [List.foldl_cons]
    rcases ih (max a x) with h | h
    · rcases max_choice a x with hm | hm
      · exact Or.inl (by rw [h, hm])
      · exact Or.inr (by rw [h, hm]; exact List.mem_cons_self x t)
    · exact Or.inr (List.mem_cons_of_mem x h)

/-- The result of a running minimum is below the seed. -/
theorem foldl_min_le (xs : List ℚ) (a : ℚ) : xs.foldl min a ≤ a := by
  induction xs generalizing a with
  | nil => exact le_refl a
  | cons x t ih =>
    rw [List.foldl_cons]
    exact le_trans (ih (min a x)) (min_le_left a x)

/-- The running minimum is below every element of the list. -/
theorem foldl_min_le_mem (xs : List ℚ) (a : ℚ) : ∀ v ∈ xs, xs.foldl min a ≤ v := by
  induction xs generalizing a with
  | nil => intro v hv; cases hv
  | cons x t ih =>
    intro v hv
    rw [List.foldl_cons]
    rcases List.mem_cons.mp hv with h | h
    · subst h
      exact le_trans (foldl_min_le t (min a v)) (min_le_right a v)
    · exact ih (min a x) v h

/-- The running minimum is the seed or an element of the list. -/
theorem foldl_min_mem (xs : List ℚ) (a : ℚ) :
    xs.foldl min a = a ∨ xs.foldl min a ∈ xs := by
  induction xs generalizing a with
  | nil => exact Or.inl rfl
  | cons x t ih =>
    rw [List.foldl_cons]
    rcases ih (min a x) with h | h
    · rcases min_choice a x with hm | hm
      · exact Or.inl (by rw [h, hm])
      · exact Or.inr (by rw [h, hm]; exact List.mem_cons_self x t)
    · exact Or.inr (List.mem_cons_of_mem x h)

/-- C2: whenever the collected `height_cm` values are non-empty, the
aggregator reports `some` minimum, mean and maximum; the reported minimum
and maximum are attained values bounding every collected value, the
reported mean is the arithmetic mean, and minimum ≤ mean ≤ maximum. -/
theorem C2_min_avg_max (logs : List GrowthLogDoc) (readings : List SensorReadingDoc)
    (h : logs.filterMap (fun l => l.height_cm) ≠ []) :
    ∃ mn av mx,
      (computePlantStats logs readings).min_height_cm = some mn ∧
      (computePlantStats logs readings).avg_height_cm = some av ∧
      (computePlantStats logs readings).max_height_cm = some mx ∧
      mn ∈ logs.filterMap (fun l => l.height_cm) ∧
      mx ∈ logs.filterMap (fun l => l.height_cm) ∧
      (∀ v ∈ logs.filterMap (fun l => l.height_cm), mn ≤ v ∧ v ≤ mx) ∧
      av = (logs.filterMap (fun l => l.height_cm)).sum /
        ((logs.filterMap (fun l => l.height_cm)).length : ℚ) ∧
      mn ≤ av ∧ av ≤ mx := by
  obtain ⟨x, t, hxt⟩ := List.exists_cons_of_ne_nil h
  refine ⟨t.foldl min x, (x :: t).sum / ((x :: t).length : ℚ), t.foldl max x,
    ?_, ?_, ?_, ?_, ?_, ?_, ?_, ?_, ?_⟩
  · simp only [computePlantStats, hxt, listMin]
  · simp only [computePlantStats, hxt, listMean]
  · simp only [computePlantStats, hxt, listMax]
  · rw [hxt]
    rcases foldl_min_mem t x with hm | hm
    · rw [hm]; exact List.mem_cons_self x t
    · exact List.mem_cons_of_mem x hm
  · rw [hxt]
    rcases foldl_max_mem t x with hm | hm
    · rw [hm]; exact List.mem_cons_self x t
    · exact List.mem_cons_of_mem x hm
  · rw [hxt]
    intro v hv
    rcases List.mem_cons.mp hv with hveq | hvt
    · subst hveq
      exact ⟨foldl_min_le t v, le_foldl_max t v⟩
    · exact ⟨foldl_min_le_mem t x v hvt, mem_le_foldl_max t x v hvt⟩
  · rw [hxt]
  · have hlenpos : (0 : ℚ) < ((x :: t).length : ℚ) := by
      rw [List.length_cons]
      push_cast
      positivity
    rw [le_div_iff₀ hlenpos]
    have hbound : ∀ v ∈ x :: t, t.foldl min x ≤ v := by
      intro v hv
      rcases List.mem_cons.mp hv with hveq | hvt
      · subst hveq; exact foldl_min_le t v
      · exact foldl_min_le_mem t x v hvt
    have hsum := List.card_nsmul_le_sum (x :: t) (t.foldl min x) hbound
    rw [nsmul_eq_mul] at hsum
    linarith [hsum]
  · have hlenpos : (0 : ℚ) < ((x :: t).length : ℚ) := by
      rw [List.length_cons]
      push_cast
      positivity
    rw [div_le_iff₀ hlenpos]
    have hbound : ∀ v ∈ x :: t, v ≤ t.foldl max x := by
      intro v hv
      rcases List.mem_cons.mp hv with hveq | hvt
      · subst hveq; exact le_foldl_max t v
      · exact mem_le_foldl_max t x v hvt
    have hsum := List.sum_le_card_nsmul (x :: t) (t.foldl max x) hbound
    rw [nsmul_eq_mul] at hsum
    linarith [hsum]

/-- Logs for the C2 witness, with heights 4 and 9. -/
def c2Logs : List GrowthLogDoc :=
  [⟨"p", 0, some 4, none, none, none⟩, ⟨"p", 1, some 9, none, none, none⟩]

/-- Witness for C2 at the concrete two-log input. -/
theorem C2_min_avg_max_witness :
    ∃ mn av mx,
      (computePlantStats c2Logs []).min_height_cm = some mn ∧
      (computePlantStats c2Logs []).avg_height_cm = some av ∧
      (computePlantStats c2Logs []).max_height_cm = some mx ∧
      mn ∈ c2Logs.filterMap (fun l => l.height_cm) ∧
      mx ∈ c2Logs.filterMap (fun l => l.height_cm) ∧
      (∀ v ∈ c2Logs.filterMap (fun l => l.height_cm), mn ≤ v ∧ v ≤ mx) ∧
      av = (c2Logs.filterMap (fun l => l.height_cm)).sum /
        ((c2Logs.filterMap (fun l => l.height_cm)).length : ℚ) ∧
      mn ≤ av ∧ av ≤ mx :=
  C2_min_avg_max c2Logs [] (by decide)

/-- GrowthLog body with a negative height, for the C8 witness. -/
def c8GrowthInput : GrowthLogInput :=
  ⟨some "aaaaaaaaaaaaaaaaaaaaaaaa", some 738000, some (-1), none, none, none⟩

/-- SensorReading body with a humidity above 100, for the C8 witness. -/
def c8SensorInput : SensorReadingInput :=
  ⟨some "aaaaaaaaaaaaaaaaaaaaaaaa", some 7, some 21, some 101, none⟩

/-- Store for the C8 witness: one already-persisted plant. -/
def c8Store : Store := ⟨[⟨"robusta", none, 0, none, none⟩], [], []⟩

/-- Witness for C8 at the concrete out-of-range bodies. -/
theorem C8_out_of_range_rejected_witness :
    (∃ e, post_growth_log c8GrowthInput c8Store = (Except.error ⟨422, e⟩, c8Store)) ∧
    (∃ e, post_sensor_reading 99 c8SensorInput c8Store =
      (Except.error ⟨422, e⟩, c8Store)) :=
  C8_out_of_range_rejected c8GrowthInput c8SensorInput 99 c8Store
    (Or.inl ⟨-1, rfl, by norm_num⟩)
    (Or.inl ⟨101, rfl, Or.inr (by norm_num)⟩)

end CoffeeTracker
